import Mathlib

/-!
Verification development for the backtest-py order-lifecycle and
balance-reconciliation core.

Monetary values (`decimal.Decimal` in the source) are modelled as exact
rationals; identifiers (`uuid.UUID`) and timestamps (`datetime`) are
modelled as naturals, since the code under study only threads them
through unchanged or compares them.  Python methods that mutate an
object in place and may raise are modelled as pure functions returning
the new state together with an optional error (the input state is
returned unchanged exactly when the Python code raises before any
assignment).  Frozen dataclasses whose `__post_init__` may raise are
modelled by smart constructors returning `Except String _`.
-/

namespace Backtest

/-- Python `decimal.Decimal`, modelled as an exact rational. -/
abbrev Money := ℚ

/-- An identifier (`uuid.UUID` in the source), threaded through unchanged. -/
abbrev Ident := ℕ

/-- A timestamp (`datetime` in the source), threaded through unchanged. -/
abbrev Timestamp := ℕ

/-- `TransactionType` from `backtest/models/transaction.py`. -/
inductive TransactionType where
  | RESERVE_MARGIN
  | RETURN_MARGIN
  | FEE_CREATE
  | FEE_FILL
  | FEE_CLOSE
  | FEE_CANCEL
  | FEE_OVERNIGHT
  | FILL_BUY
  | FILL_SELL
  | CLOSE_PNL
  | SPOT_EXCHANGE
  | ADJUSTMENT
  deriving DecidableEq

/-- `Transaction` from `backtest/models/transaction.py`: an immutable
ledger entry with signed deltas for the available and unavailable
balance components. -/
structure Transaction where
  account_id : Ident
  backtest_run_id : Ident
  timestamp : Timestamp
  description : String
  available_balance_change : Money
  unavailable_balance_change : Money
  transaction_type : TransactionType
  order_id : Option Ident := none
  transaction_id : Ident := 0
  deriving DecidableEq

/-- `Transaction.total_balance_change`: sum of the two deltas. -/
def Transaction.total_balance_change (t : Transaction) : Money :=
  t.available_balance_change + t.unavailable_balance_change

/-- `Balance` from `backtest/models/balance.py` (fields only; the
`__post_init__` validation lives in `Balance.make`). -/
structure Balance where
  account_id : Ident
  backtest_run_id : Ident
  timestamp : Timestamp
  available_balance : Money
  unavailable_balance : Money
  balance_id : Ident := 0
  deriving DecidableEq

/-- Construction of a `Balance`, including the `__post_init__`
validation: both components must be non-negative, otherwise
construction raises `ValueError`. -/
def Balance.make (account_id backtest_run_id : Ident) (timestamp : Timestamp)
    (available_balance unavailable_balance : Money) : Except String Balance :=
  if available_balance < 0 then
    Except.error "available_balance cannot be negative"
  else if unavailable_balance < 0 then
    Except.error "unavailable_balance cannot be negative"
  else
    Except.ok
      { account_id := account_id
        backtest_run_id := backtest_run_id
        timestamp := timestamp
        available_balance := available_balance
        unavailable_balance := unavailable_balance }

/-- `Balance.total_balance`: available + unavailable. -/
def Balance.total_balance (b : Balance) : Money :=
  b.available_balance + b.unavailable_balance

/-- The transaction-application loop inside
`BalanceRepository.reconcile_balance`: one pass over the transactions,
adding each transaction's two deltas to the running components. -/
def apply_transactions (available unavailable : Money)
    (transactions : List Transaction) : Money × Money :=
  transactions.foldl
    (fun acc t =>
      (acc.1 + t.available_balance_change, acc.2 + t.unavailable_balance_change))
    (available, unavailable)

/-- `BalanceRepository.reconcile_balance` from
`backtest/repositories/balance_repository.py`: start from the initial
balance's components (zero when none is given), apply each transaction's
deltas in list order, and construct a new `Balance` at `timestamp`.
The repository `save` only stores the constructed balance and returns it
unchanged, so it is not modelled. -/
def reconcile_balance (account_id backtest_run_id : Ident) (timestamp : Timestamp)
    (transactions : List Transaction) (initial_balance : Option Balance) :
    Except String Balance :=
  let init : Money × Money :=
    match initial_balance with
    | none => (0, 0)
    | some b => (b.available_balance, b.unavailable_balance)
  let final := apply_transactions init.1 init.2 transactions
  Balance.make account_id backtest_run_id timestamp final.1 final.2

/-- Helper: the application loop computes the initial components plus
the componentwise sums over the whole list. -/
theorem apply_transactions_eq (available unavailable : Money)
    (transactions : List Transaction) :
    apply_transactions available unavailable transactions =
      (available + (transactions.map (fun t => t.available_balance_change)).sum,
       unavailable + (transactions.map (fun t => t.unavailable_balance_change)).sum) := by
  induction transactions generalizing available unavailable with
  | nil => simp [apply_transactions]
  | cons t ts ih =>
      simp only [apply_transactions, List.foldl_cons] at *
      rw [ih]
      simp [add_assoc]

/-- Helper: `Balance.make` succeeds exactly when both components are
non-negative. -/
theorem Balance.make_isOk (account_id backtest_run_id : Ident)
    (timestamp : Timestamp) (available unavailable : Money) :
    (Balance.make account_id backtest_run_id timestamp available unavailable).isOk = true ↔
      0 ≤ available ∧ 0 ≤ unavailable := by
  unfold Balance.make
  split_ifs with h1 h2
  · simp only [Except.isOk, Except.toBool, Bool.false_eq_true, false_iff]
    exact fun h => absurd h.1 (not_le.mpr h1)
  · simp only [Except.isOk, Except.toBool, Bool.false_eq_true, false_iff]
    exact fun h => absurd h.2 (not_le.mpr h2)
  · simp only [Except.isOk, Except.toBool, true_iff]
    exact ⟨not_lt.mp h1, not_lt.mp h2⟩

/-- `OrderDirection` from `backtest/models/orders.py`. -/
inductive OrderDirection where
  | LONG
  | SHORT
  deriving DecidableEq

/-- `OrderStatus` from `backtest/models/orders.py`. -/
inductive OrderStatus where
  | PENDING
  | FILLED
  | CANCELLED
  | CLOSED
  deriving DecidableEq

/-- `TradingOrder` from `backtest/models/orders.py` (fields only).
Optional `Decimal`/`datetime`/`UUID` fields become `Option` values. -/
structure TradingOrder where
  trading_pair_code : String
  direction : OrderDirection
  volume : Money
  create_timestamp : Timestamp
  create_price : Money
  agent_id : Ident
  account_id : Ident
  broker_id : Ident
  backtest_run_id : Ident
  status : OrderStatus := OrderStatus.PENDING
  fill_timestamp : Option Timestamp := none
  fill_price : Option Money := none
  close_timestamp : Option Timestamp := none
  close_price : Option Money := none
  cancel_timestamp : Option Timestamp := none
  limit_price : Option Money := none
  stop_loss : Option Money := none
  take_profit : Option Money := none
  leverage : Option Money := none
  fees_on_create : Money := 0
  fees_on_fill : Money := 0
  fees_on_close : Money := 0
  fees_on_cancel : Money := 0
  fees_on_overnight : Money := 0
  margin_reserved : Money := 0
  gross_pnl : Money := 0
  net_pnl : Money := 0
  parent_order_id : Option Ident := none
  root_order_id : Option Ident := none
  id : Ident := 0
  deriving DecidableEq

/-- `TradingOrder.total_fees`: sum of the five fee accumulators. -/
def TradingOrder.total_fees (o : TradingOrder) : Money :=
  o.fees_on_create + o.fees_on_fill + o.fees_on_close +
    o.fees_on_cancel + o.fees_on_overnight

/-- `TradingOrder.fill`: in the source this mutates the order in place
and may raise.  Modelled as returning the new state together with an
optional error message; on error the Python method raises before any
assignment, so the state component is the unchanged input. -/
def TradingOrder.fill (o : TradingOrder) (fill_timestamp : Timestamp)
    (fill_price : Money) (fees_on_fill : Money) (margin_reserved : Money) :
    TradingOrder × Option String :=
  if o.status ≠ OrderStatus.PENDING then
    (o, some "Cannot fill order with this status")
  else
    ({ o with
        fill_timestamp := some fill_timestamp
        fill_price := some fill_price
        fees_on_fill := fees_on_fill
        margin_reserved := margin_reserved
        status := OrderStatus.FILLED }, none)

/-- `TradingOrder.close`: guards on status FILLED and a set fill price,
then records the close data, computes gross P&L by direction and
net P&L as gross minus the total fees (with `fees_on_close` already
replaced by the argument). -/
def TradingOrder.close (o : TradingOrder) (close_timestamp : Timestamp)
    (close_price : Money) (fees_on_close : Money) :
    TradingOrder × Option String :=
  if o.status ≠ OrderStatus.FILLED then
    (o, some "Cannot close order with this status")
  else
    match o.fill_price with
    | none => (o, some "Order must be filled before closing")
    | some fp =>
        let o1 : TradingOrder :=
          { o with
              close_timestamp := some close_timestamp
              close_price := some close_price
              fees_on_close := fees_on_close
              status := OrderStatus.CLOSED }
        let gross : Money :=
          match o.direction with
          | OrderDirection.LONG => (close_price - fp) * o.volume
          | OrderDirection.SHORT => (fp - close_price) * o.volume
        let o2 : TradingOrder := { o1 with gross_pnl := gross }
        ({ o2 with net_pnl := gross - o2.total_fees }, none)

/-- `TradingOrder.cancel`: guards on status PENDING, records the cancel
data and sets net P&L to the negative of the total fees so far. -/
def TradingOrder.cancel (o : TradingOrder) (cancel_timestamp : Timestamp)
    (fees_on_cancel : Money) : TradingOrder × Option String :=
  if o.status ≠ OrderStatus.PENDING then
    (o, some "Cannot cancel order with this status")
  else
    let o1 : TradingOrder :=
      { o with
          cancel_timestamp := some cancel_timestamp
          fees_on_cancel := fees_on_cancel
          status := OrderStatus.CANCELLED }
    ({ o1 with net_pnl := -o1.total_fees }, none)

/-- `TradingOrder.add_overnight_fees`: rejects negative fees, adds to
the overnight accumulator and recomputes net P&L if already CLOSED. -/
def TradingOrder.add_overnight_fees (o : TradingOrder) (fees : Money) :
    TradingOrder × Option String :=
  if fees < 0 then
    (o, some "fees cannot be negative")
  else
    let o1 : TradingOrder := { o with fees_on_overnight := o.fees_on_overnight + fees }
    if o1.status = OrderStatus.CLOSED then
      ({ o1 with net_pnl := o1.gross_pnl - o1.total_fees }, none)
    else
      (o1, none)

/-- Python truthiness of `x or dflt` for an `Optional[Decimal]` value:
`None` and `Decimal("0")` are both falsy and select the default. -/
def pyOrDecimal (x : Option Money) (dflt : Money) : Money :=
  match x with
  | none => dflt
  | some v => if v = 0 then dflt else v

/-- `SpotOrder` from `backtest/models/spot_order.py` (fields only).
The frozen dataclass is immutable; lifecycle steps produce new values. -/
structure SpotOrder where
  broker_id : Ident
  trading_pair_code : String
  agent_id : Ident
  account_id : Ident
  backtest_run_id : Ident
  order_number : ℤ
  direction : OrderDirection
  status : OrderStatus
  create_timestamp : Timestamp
  volume : Money
  limit_price : Option Money := none
  id : Ident := 0
  parent_id : Option Ident := none
  root_id : Option Ident := none
  fill_timestamp : Option Timestamp := none
  fill_price : Option Money := none
  fill_volume : Option Money := none
  cancel_timestamp : Option Timestamp := none
  cancel_volume : Option Money := none
  fee_create : Option Money := none
  fee_fill : Option Money := none
  fee_cancel : Option Money := none
  deriving DecidableEq

/-- `SpotOrder.remaining_volume`: volume minus filled and cancelled
volumes, with unset (`None`) fields treated as zero. -/
def SpotOrder.remaining_volume (o : SpotOrder) : Money :=
  o.volume - (o.fill_volume.getD 0) - (o.cancel_volume.getD 0)

/-- `SpotOrder.create_filled_copy`: requires PENDING status; an omitted
or zero `fill_volume` defaults to the full order volume (Python `or`);
the effective volume must be positive and at most `self.volume`; on
success a new FILLED order is returned carrying all other fields over
and storing the fee argument as given. -/
def SpotOrder.create_filled_copy (o : SpotOrder) (fill_timestamp : Timestamp)
    (fill_price : Money) (fill_volume : Option Money) (fee_fill : Option Money) :
    Except String SpotOrder :=
  if o.status ≠ OrderStatus.PENDING then
    Except.error "Cannot fill order with this status"
  else
    let fill_vol := pyOrDecimal fill_volume o.volume
    if fill_vol ≤ 0 ∨ fill_vol > o.volume then
      Except.error "Invalid fill volume"
    else
      Except.ok
        { o with
            status := OrderStatus.FILLED
            fill_timestamp := some fill_timestamp
            fill_price := some fill_price
            fill_volume := some fill_vol
            fee_fill := fee_fill }

/-- `SpotOrder.create_cancelled_copy`: requires PENDING status; an
omitted or zero `cancel_volume` defaults to the remaining volume; the
effective volume must be positive and at most the remaining volume; on
success a new CANCELLED order is returned carrying all other fields
over and storing the fee argument as given. -/
def SpotOrder.create_cancelled_copy (o : SpotOrder) (cancel_timestamp : Timestamp)
    (cancel_volume : Option Money) (fee_cancel : Option Money) :
    Except String SpotOrder :=
  if o.status ≠ OrderStatus.PENDING then
    Except.error "Cannot cancel order with this status"
  else
    let cancel_vol := pyOrDecimal cancel_volume o.remaining_volume
    if cancel_vol ≤ 0 ∨ cancel_vol > o.remaining_volume then
      Except.error "Invalid cancel volume"
    else
      Except.ok
        { o with
            status := OrderStatus.CANCELLED
            cancel_timestamp := some cancel_timestamp
            cancel_volume := some cancel_vol
            fee_cancel := fee_cancel }

/-- `LeverageType` from `backtest/models/trading_rules.py`. -/
inductive LeverageType where
  | NO_LEVERAGE
  | FLAT_MARGIN_PER_VOLUME
  | MARGIN_MULTIPLIER
  deriving DecidableEq

/-- `FeeType` from `backtest/models/trading_rules.py`. -/
inductive FeeType where
  | NO_FEE
  | FLAT_PER_VOLUME
  | FLAT_PER_TRADE
  | PERCENT_OF_NOTIONAL
  | PERCENT_OF_MARGIN
  deriving DecidableEq

/-- `FeeTiming` from `backtest/models/trading_rules.py`. -/
inductive FeeTiming where
  | ON_CREATE
  | ON_FILL
  | ON_CLOSE
  | ON_CANCEL
  | ON_OVERNIGHT_PENDING
  | ON_OVERNIGHT_FILLED
  deriving DecidableEq

/-- `OvernightTiming` from `backtest/models/trading_rules.py`. -/
inductive OvernightTiming where
  | ON_PERIOD_CHANGE
  | ON_FIXED_TIME
  deriving DecidableEq

/-- `Fee` from `backtest/models/trading_rules.py`. -/
structure Fee where
  fee_type : FeeType
  fee_timing : FeeTiming
  amount : Money := 0
  deriving DecidableEq

/-- `TradingRules` from `backtest/models/trading_rules.py` (fields
only).  `overnight_charge_time` (a `datetime.time`) is modelled as an
optional natural. -/
structure TradingRules where
  broker_id : Ident
  pair_code : String
  leverage_type : LeverageType := LeverageType.NO_LEVERAGE
  leverage_value : Money := 1
  brokerage_fee : Option Fee := none
  custody_fee : Option Fee := none
  leverage_fee : Option Fee := none
  overnight_timing : OvernightTiming := OvernightTiming.ON_PERIOD_CHANGE
  overnight_charge_time : Option ℕ := none
  min_volume : Money := 0
  min_notional_amount : Money := 0
  min_margin_amount : Money := 0
  allows_long : Bool := true
  allows_short : Bool := false
  id : Ident := 0
  deriving DecidableEq

/-- The `TradingRules.__post_init__` validation: an instance exists in
the source exactly when all of these conditions hold.  The Python check
`not pair_code or not pair_code.strip()` rejects a pair code that is
empty or all whitespace, i.e. one with no non-whitespace character. -/
def TradingRules.WellFormed (r : TradingRules) : Prop :=
  r.pair_code.toList.any (fun c => !c.isWhitespace) = true ∧
  (r.leverage_type = LeverageType.NO_LEVERAGE → r.leverage_value = 1) ∧
  (r.leverage_type = LeverageType.FLAT_MARGIN_PER_VOLUME → 0 < r.leverage_value) ∧
  (r.leverage_type = LeverageType.MARGIN_MULTIPLIER → 0 < r.leverage_value) ∧
  (r.overnight_timing = OvernightTiming.ON_FIXED_TIME → r.overnight_charge_time ≠ none) ∧
  0 ≤ r.min_volume ∧ 0 ≤ r.min_notional_amount ∧ 0 ≤ r.min_margin_amount ∧
  (r.allows_long = true ∨ r.allows_short = true)

instance (r : TradingRules) : Decidable r.WellFormed := by
  unfold TradingRules.WellFormed
  infer_instance

/-- `TradingRules.calculate_margin_required`: the notional is
volume × price × contract_size; margin is the full notional under
NO_LEVERAGE, volume × leverage_value under FLAT_MARGIN_PER_VOLUME and
notional / leverage_value under MARGIN_MULTIPLIER. -/
def TradingRules.calculate_margin_required (r : TradingRules)
    (volume price contract_size : Money) : Money :=
  let notional := volume * price * contract_size
  match r.leverage_type with
  | LeverageType.NO_LEVERAGE => notional
  | LeverageType.FLAT_MARGIN_PER_VOLUME => volume * r.leverage_value
  | LeverageType.MARGIN_MULTIPLIER => notional / r.leverage_value

/-- `TradingRules.validate_order`: checks direction permission, minimum
volume, minimum notional, minimum margin and available margin in that
order, returning `(false, reason)` at the first failing check and
`(true, none)` when all pass.  The source interpolates the offending
numbers into the reason strings; the messages here keep the fixed text
only.  The method reads only its arguments and `self` and writes
nothing, so it is a pure function. -/
def TradingRules.validate_order (r : TradingRules)
    (volume price margin : Money) (is_long : Bool) (contract_size : Money) :
    Bool × Option String :=
  if is_long ∧ ¬ r.allows_long then
    (false, some "Long positions not allowed")
  else if ¬ is_long ∧ ¬ r.allows_short then
    (false, some "Short positions not allowed")
  else if volume < r.min_volume then
    (false, some "Volume below minimum")
  else
    let notional := volume * price * contract_size
    if notional < r.min_notional_amount then
      (false, some "Notional below minimum")
    else
      let required_margin := r.calculate_margin_required volume price contract_size
      if required_margin < r.min_margin_amount then
        (false, some "Margin below minimum")
      else if margin < required_margin then
        (false, some "Insufficient margin")
      else
        (true, none)

/-- Modelled from the spec sentence for `validate_order`: evaluate the
five checks — direction permission, volume ≥ min_volume, notional ≥
min_notional, required margin ≥ min_margin, available margin ≥ required
margin — in that fixed order, short-circuiting on the first failure
with its reason, and report `(true, none)` when all pass. -/
def validate_order_spec (r : TradingRules)
    (volume price margin : Money) (is_long : Bool) (contract_size : Money) :
    Bool × Option String :=
  let notional := volume * price * contract_size
  let required_margin := r.calculate_margin_required volume price contract_size
  let checks : List (Bool × String) :=
    [(if is_long then r.allows_long else r.allows_short,
        if is_long then "Long positions not allowed" else "Short positions not allowed"),
     (decide (r.min_volume ≤ volume), "Volume below minimum"),
     (decide (r.min_notional_amount ≤ notional), "Notional below minimum"),
     (decide (r.min_margin_amount ≤ required_margin), "Margin below minimum"),
     (decide (required_margin ≤ margin), "Insufficient margin")]
  match checks.find? (fun c => !c.1) with
  | some c => (false, some c.2)
  | none => (true, none)

/-- `BarData` from `backtest/models/market_data.py`, restricted to the
fields the engine loop threads through (the OHLCV payload). -/
structure BarData where
  symbol : String
  timestamp : Timestamp
  openPrice : Money
  high : Money
  low : Money
  close : Money
  volume : Money
  deriving DecidableEq

/-- One externally visible step of `BacktestEngine.run`: a strategy
callback or the forced closure of remaining open positions. -/
inductive EngineEvent where
  | on_start
  | on_bar (bar : BarData)
  | on_end
  | close_all_positions
  deriving DecidableEq

/-- Project the bar out of an `on_bar` event. -/
def EngineEvent.bar? : EngineEvent → Option BarData
  | EngineEvent.on_bar b => some b
  | _ => none

/-- The sequence of strategy callbacks and the forced closure emitted
by `BacktestEngine.run` over a prepared dataset, in program order:
`run` calls `strategy.on_start`, then iterates the prepared bars
calling `strategy.on_bar` once per bar inside `_process_bar`, then
calls `strategy.on_end`, then `_close_all_positions`. -/
def run_events (bars : List BarData) : List EngineEvent :=
  [EngineEvent.on_start] ++ bars.map EngineEvent.on_bar ++
    [EngineEvent.on_end, EngineEvent.close_all_positions]

/-! Theorems. -/

/-- Helper: `Balance.make` on non-negative components succeeds with the
record holding exactly those components. -/
theorem Balance.make_ok (account_id backtest_run_id : Ident) (timestamp : Timestamp)
    (a u : Money) (h1 : 0 ≤ a) (h2 : 0 ≤ u) :
    Balance.make account_id backtest_run_id timestamp a u =
      Except.ok
        { account_id := account_id
          backtest_run_id := backtest_run_id
          timestamp := timestamp
          available_balance := a
          unavailable_balance := u } := by
  unfold Balance.make
  rw [if_neg (not_lt.mpr h1), if_neg (not_lt.mpr h2)]

/-- Helper: `reconcile_balance` constructs the balance whose components
are the prior components plus the componentwise sums over the list. -/
theorem reconcile_balance_eq (account_id backtest_run_id : Ident)
    (timestamp : Timestamp) (txs : List Transaction) (prior : Option Balance) :
    reconcile_balance account_id backtest_run_id timestamp txs prior =
      Balance.make account_id backtest_run_id timestamp
        (prior.elim 0 Balance.available_balance +
          (txs.map (fun t => t.available_balance_change)).sum)
        (prior.elim 0 Balance.unavailable_balance +
          (txs.map (fun t => t.unavailable_balance_change)).sum) := by
  cases prior <;> simp [reconcile_balance, apply_transactions_eq, Option.elim]

/-- Helper: the summed total changes split into the two component sums. -/
theorem sum_total_balance_change (txs : List Transaction) :
    (txs.map Transaction.total_balance_change).sum =
      (txs.map (fun t => t.available_balance_change)).sum +
        (txs.map (fun t => t.unavailable_balance_change)).sum := by
  induction txs with
  | nil => simp
  | cons t ts ih =>
      simp only [List.map_cons, List.sum_cons, ih, Transaction.total_balance_change]
      ring

/-- C1: Balance conservation under reconciliation — for every prior
Balance (or a zero starting point when none is given) and every list of
Transactions whose final summed available and unavailable components
are both non-negative, the Balance returned by `reconcile_balance` has
`total_balance` equal to the prior `total_balance` plus the sum over
all supplied transactions of `total_balance_change`. -/
theorem reconcile_balance_conservation (account_id backtest_run_id : Ident)
    (timestamp : Timestamp) (prior : Option Balance) (txs : List Transaction)
    (h1 : 0 ≤ prior.elim 0 Balance.available_balance +
      (txs.map (fun t => t.available_balance_change)).sum)
    (h2 : 0 ≤ prior.elim 0 Balance.unavailable_balance +
      (txs.map (fun t => t.unavailable_balance_change)).sum) :
    (reconcile_balance account_id backtest_run_id timestamp txs prior).map
        Balance.total_balance =
      Except.ok (prior.elim 0 Balance.total_balance +
        (txs.map Transaction.total_balance_change).sum) := by
  rw [reconcile_balance_eq,
    Balance.make_ok account_id backtest_run_id timestamp _ _ h1 h2]
  cases prior <;>
    simp [Except.map, Option.elim, Balance.total_balance, sum_total_balance_change] <;>
    ring

/-- C1 witness: the spec's concrete scenario — prior available 100000 /
unavailable 0, then reserve 1000 of margin, pay a fill fee of 10,
return the margin and realize 500 of P&L, for a final total of
100490. -/
def c1prior : Balance :=
  { account_id := 1
    backtest_run_id := 1
    timestamp := 0
    available_balance := 100000
    unavailable_balance := 0 }

/-- C1 witness transactions: reserve margin, fill fee, margin return
and realized P&L. -/
def c1txs : List Transaction :=
  [{ account_id := 1, backtest_run_id := 1, timestamp := 1,
     description := "Reserve margin", available_balance_change := -1000,
     unavailable_balance_change := 1000,
     transaction_type := TransactionType.RESERVE_MARGIN },
   { account_id := 1, backtest_run_id := 1, timestamp := 2,
     description := "Fill fee", available_balance_change := -10,
     unavailable_balance_change := 0,
     transaction_type := TransactionType.FEE_FILL },
   { account_id := 1, backtest_run_id := 1, timestamp := 3,
     description := "Return margin", available_balance_change := 1000,
     unavailable_balance_change := -1000,
     transaction_type := TransactionType.RETURN_MARGIN },
   { account_id := 1, backtest_run_id := 1, timestamp := 4,
     description := "Close PnL", available_balance_change := 500,
     unavailable_balance_change := 0,
     transaction_type := TransactionType.CLOSE_PNL }]

/-- C1 witness: reconciling the concrete scenario yields total 100490. -/
theorem reconcile_balance_conservation_witness :
    (reconcile_balance 1 1 5 c1txs (some c1prior)).map Balance.total_balance =
      Except.ok 100490 := by
  have h := reconcile_balance_conservation 1 1 5 (some c1prior) c1txs
    (by norm_num [c1prior, c1txs, Option.elim])
    (by norm_num [c1prior, c1txs, Option.elim])
  rw [h]
  exact congrArg Except.ok
    (by norm_num [c1prior, c1txs, Option.elim, Balance.total_balance,
      Transaction.total_balance_change])

/-- C10: `reconcile_balance` is permutation-invariant — for every
initial balance and transaction list, any reordering of the list gives
the identical result (same success or failure and the same balance
components), and success depends only on the final summed components
being non-negative, never on any intermediate prefix sum. -/
theorem reconcile_balance_perm_invariant (account_id backtest_run_id : Ident)
    (timestamp : Timestamp) (prior : Option Balance) (txs txs2 : List Transaction)
    (h : txs.Perm txs2) :
    reconcile_balance account_id backtest_run_id timestamp txs prior =
      reconcile_balance account_id backtest_run_id timestamp txs2 prior ∧
    ((reconcile_balance account_id backtest_run_id timestamp txs prior).isOk = true ↔
      0 ≤ prior.elim 0 Balance.available_balance +
        (txs.map (fun t => t.available_balance_change)).sum ∧
      0 ≤ prior.elim 0 Balance.unavailable_balance +
        (txs.map (fun t => t.unavailable_balance_change)).sum) := by
  have ha : (txs.map (fun t => t.available_balance_change)).sum =
      (txs2.map (fun t => t.available_balance_change)).sum :=
    (h.map (fun t => t.available_balance_change)).sum_eq
  have hu : (txs.map (fun t => t.unavailable_balance_change)).sum =
      (txs2.map (fun t => t.unavailable_balance_change)).sum :=
    (h.map (fun t => t.unavailable_balance_change)).sum_eq
  constructor
  · rw [reconcile_balance_eq, reconcile_balance_eq, ha, hu]
  · rw [reconcile_balance_eq]
    exact Balance.make_isOk account_id backtest_run_id timestamp _ _

/-- C10 witness transaction: margin-style movement. -/
def c10t1 : Transaction :=
  { account_id := 1, backtest_run_id := 1, timestamp := 1,
    description := "Reserve", available_balance_change := 3,
    unavailable_balance_change := -1,
    transaction_type := TransactionType.RESERVE_MARGIN }

/-- C10 witness transaction: an adjustment whose prefix application
first drives the available component negative. -/
def c10t2 : Transaction :=
  { account_id := 1, backtest_run_id := 1, timestamp := 2,
    description := "Adjust", available_balance_change := -2,
    unavailable_balance_change := 5,
    transaction_type := TransactionType.ADJUSTMENT }

/-- C10 witness: swapping the two transactions leaves the result
unchanged and reconciliation succeeds even though one order of
application passes through a negative intermediate prefix. -/
theorem reconcile_balance_perm_invariant_witness :
    reconcile_balance 1 1 3 [c10t1, c10t2] none =
      reconcile_balance 1 1 3 [c10t2, c10t1] none ∧
    (reconcile_balance 1 1 3 [c10t1, c10t2] none).isOk = true := by
  have h := reconcile_balance_perm_invariant 1 1 3 none [c10t1, c10t2]
    [c10t2, c10t1] (List.Perm.swap c10t2 c10t1 [])
  exact ⟨h.1, h.2.mpr (by norm_num [c10t1, c10t2, Option.elim])⟩

/-- C2: TradingOrder state-machine guards with atomic failure —
`fill` succeeds exactly from PENDING, `close` succeeds only from FILLED,
`cancel` succeeds exactly from PENDING; a transition attempted from a
disallowed state reports an invalid-state error and returns the order
with every field unchanged (the source raises before any assignment). -/
theorem trading_order_state_machine_guards (o : TradingOrder)
    (ts1 ts2 ts3 : Timestamp) (fp cp : Money) (f1 m1 f2 f3 : Money) :
    ((o.fill ts1 fp f1 m1).2 = none ↔ o.status = OrderStatus.PENDING) ∧
    ((o.close ts2 cp f2).2 = none → o.status = OrderStatus.FILLED) ∧
    ((o.cancel ts3 f3).2 = none ↔ o.status = OrderStatus.PENDING) ∧
    (o.status ≠ OrderStatus.PENDING →
      (o.fill ts1 fp f1 m1).2.isSome = true ∧ (o.fill ts1 fp f1 m1).1 = o) ∧
    (o.status ≠ OrderStatus.FILLED →
      (o.close ts2 cp f2).2.isSome = true ∧ (o.close ts2 cp f2).1 = o) ∧
    (o.status ≠ OrderStatus.PENDING →
      (o.cancel ts3 f3).2.isSome = true ∧ (o.cancel ts3 f3).1 = o) := by
  cases hs : o.status <;>
    cases hfp : o.fill_price <;>
      simp [TradingOrder.fill, TradingOrder.close, TradingOrder.cancel, hs, hfp]

/-- C2 witness order: a FILLED order, a disallowed state for both
`fill` and `cancel`. -/
def c2order : TradingOrder :=
  { trading_pair_code := "BTCUSD"
    direction := OrderDirection.LONG
    volume := 1
    create_timestamp := 0
    create_price := 100
    agent_id := 1
    account_id := 1
    broker_id := 1
    backtest_run_id := 1
    status := OrderStatus.FILLED
    fill_timestamp := some 1
    fill_price := some 100 }

/-- C2 witness: on the FILLED order, `fill` and `cancel` report errors
and leave the order unchanged. -/
theorem trading_order_state_machine_guards_witness :
    (c2order.fill 2 101 0 0).2.isSome = true ∧ (c2order.fill 2 101 0 0).1 = c2order ∧
    (c2order.cancel 2 0).2.isSome = true ∧ (c2order.cancel 2 0).1 = c2order := by
  have h := trading_order_state_machine_guards c2order 2 2 2 101 101 0 0 0 0
  have hfill := h.2.2.2.1 (by simp [c2order])
  have hcancel := h.2.2.2.2.2 (by simp [c2order])
  exact ⟨hfill.1, hfill.2, hcancel.1, hcancel.2⟩

/-- C3: P&L formula on close — for every FILLED TradingOrder with a
set fill price, a successful `close` sets gross P&L to
(close − fill) × volume for LONG and (fill − close) × volume for SHORT,
and net P&L to gross minus the sum of the five fee accumulators, with
`fees_on_close` replaced by the argument. -/
theorem trading_order_close_pnl (o : TradingOrder) (ts : Timestamp)
    (cp fc fp : Money)
    (hs : o.status = OrderStatus.FILLED) (hf : o.fill_price = some fp) :
    (o.close ts cp fc).2 = none ∧
    (o.direction = OrderDirection.LONG →
      (o.close ts cp fc).1.gross_pnl = (cp - fp) * o.volume ∧
      (o.close ts cp fc).1.net_pnl = (cp - fp) * o.volume -
        (o.fees_on_create + o.fees_on_fill + fc + o.fees_on_cancel +
          o.fees_on_overnight)) ∧
    (o.direction = OrderDirection.SHORT →
      (o.close ts cp fc).1.gross_pnl = (fp - cp) * o.volume ∧
      (o.close ts cp fc).1.net_pnl = (fp - cp) * o.volume -
        (o.fees_on_create + o.fees_on_fill + fc + o.fees_on_cancel +
          o.fees_on_overnight)) := by
  cases hd : o.direction <;>
    simp [TradingOrder.close, TradingOrder.total_fees, hs, hf, hd]

/-- C3 witness base order: LONG, volume 0.1, filled at 50000 with a
fill fee of 5.01. -/
def c3base : TradingOrder :=
  { trading_pair_code := "BTCUSD"
    direction := OrderDirection.LONG
    volume := 1/10
    create_timestamp := 0
    create_price := 50000
    agent_id := 1
    account_id := 1
    broker_id := 1
    backtest_run_id := 1
    status := OrderStatus.FILLED
    fill_timestamp := some 1
    fill_price := some 50000
    fees_on_fill := 501/100 }

/-- C3 witness order: the base order after three overnight-fee
additions of 0.50 each. -/
def c3order : TradingOrder :=
  (((c3base.add_overnight_fees (1/2)).1.add_overnight_fees (1/2)).1.add_overnight_fees
    (1/2)).1

/-- Helper: the three overnight-fee additions of 0.50 on the FILLED
base order accumulate to 1.50 and change nothing else. -/
theorem c3order_eq : c3order = { c3base with fees_on_overnight := 3/2 } := by
  have h0 : ¬ ((1:ℚ)/2 < 0) := by norm_num
  have h1 : (c3base.add_overnight_fees (1/2)).1 =
      { c3base with fees_on_overnight := 1/2 } := by
    rw [TradingOrder.add_overnight_fees, if_neg h0]
    simp [c3base]
  have h2 : (({ c3base with fees_on_overnight := 1/2 } :
      TradingOrder).add_overnight_fees (1/2)).1 =
      { c3base with fees_on_overnight := 1 } := by
    rw [TradingOrder.add_overnight_fees, if_neg h0]
    simp [c3base]
    norm_num
  have h3 : (({ c3base with fees_on_overnight := 1 } :
      TradingOrder).add_overnight_fees (1/2)).1 =
      { c3base with fees_on_overnight := 3/2 } := by
    rw [TradingOrder.add_overnight_fees, if_neg h0]
    simp [c3base]
    norm_num
  rw [c3order, h1, h2, h3]

/-- C3 witness: the spec's concrete scenario — closing at 55000 with a
close fee of 5.50 yields gross P&L 500 and net P&L 487.99. -/
theorem trading_order_close_pnl_witness :
    (c3order.close 2 55000 (11/2)).2 = none ∧
    (c3order.close 2 55000 (11/2)).1.gross_pnl = 500 ∧
    (c3order.close 2 55000 (11/2)).1.net_pnl = 48799/100 := by
  have h := trading_order_close_pnl c3order 2 55000 (11/2) 50000
    (by simp [c3order_eq, c3base]) (by simp [c3order_eq, c3base])
  have hl := h.2.1 (by simp [c3order_eq, c3base])
  refine ⟨h.1, ?_, ?_⟩
  · rw [hl.1]
    norm_num [c3order_eq, c3base]
  · rw [hl.2]
    norm_num [c3order_eq, c3base]

/-- C4 counterexample order: PENDING with volume 10 and a recorded
cancel volume of 4, so remaining volume is 6 while total volume is
10. -/
def c4order : SpotOrder :=
  { broker_id := 1
    trading_pair_code := "BTCUSD"
    agent_id := 1
    account_id := 1
    backtest_run_id := 1
    order_number := 1
    direction := OrderDirection.LONG
    status := OrderStatus.PENDING
    create_timestamp := 0
    volume := 10
    cancel_volume := some 4
    id := 7
    root_id := some 7 }

/-- C4 counterexample: `create_filled_copy` validates the fill volume
against the order's total volume, not the remaining volume — filling 8
succeeds on a PENDING order whose remaining volume is only 6, where the
claim says the operation must fail. -/
theorem spot_order_fill_bound_counterexample :
    c4order.status = OrderStatus.PENDING ∧
    c4order.remaining_volume = 6 ∧
    (c4order.create_filled_copy 1 100 (some 8) none).isOk = true := by
  refine ⟨rfl, by norm_num [c4order, SpotOrder.remaining_volume], ?_⟩
  norm_num [c4order, SpotOrder.create_filled_copy, pyOrDecimal,
    Except.isOk, Except.toBool]

/-- C4 amended: for an explicitly passed nonzero volume,
`create_filled_copy` succeeds exactly when the order is PENDING and the
volume lies in (0, total volume], while `create_cancelled_copy`
succeeds exactly when the order is PENDING and the volume lies in
(0, remaining volume]; a zero or omitted volume is instead treated as
unset and replaced by the default. -/
theorem spot_order_volume_validation (o : SpotOrder) (ts1 ts2 : Timestamp)
    (price v : Money) (fee1 fee2 : Option Money) (hv : v ≠ 0) :
    ((o.create_filled_copy ts1 price (some v) fee1).isOk = true ↔
      o.status = OrderStatus.PENDING ∧ 0 < v ∧ v ≤ o.volume) ∧
    ((o.create_cancelled_copy ts2 (some v) fee2).isOk = true ↔
      o.status = OrderStatus.PENDING ∧ 0 < v ∧ v ≤ o.remaining_volume) := by
  have hpy : ∀ d : Money, pyOrDecimal (some v) d = v := fun d => by
    simp [pyOrDecimal, hv]
  refine ⟨?_, ?_⟩
  · simp only [SpotOrder.create_filled_copy, hpy]
    split_ifs with h1 h2
    · simp only [Except.isOk, Except.toBool, Bool.false_eq_true, false_iff]
      exact fun h => h1 h.1
    · simp only [Except.isOk, Except.toBool, Bool.false_eq_true, false_iff]
      rintro ⟨-, hv2, hv3⟩
      rcases h2 with h | h
      · exact absurd hv2 (not_lt.mpr h)
      · exact absurd hv3 (not_le.mpr h)
    · simp only [Except.isOk, Except.toBool, true_iff]
      push_neg at h2
      exact ⟨not_ne_iff.mp h1, h2.1, h2.2⟩
  · simp only [SpotOrder.create_cancelled_copy, hpy]
    split_ifs with h1 h2
    · simp only [Except.isOk, Except.toBool, Bool.false_eq_true, false_iff]
      exact fun h => h1 h.1
    · simp only [Except.isOk, Except.toBool, Bool.false_eq_true, false_iff]
      rintro ⟨-, hv2, hv3⟩
      rcases h2 with h | h
      · exact absurd hv2 (not_lt.mpr h)
      · exact absurd hv3 (not_le.mpr h)
    · simp only [Except.isOk, Except.toBool, true_iff]
      push_neg at h2
      exact ⟨not_ne_iff.mp h1, h2.1, h2.2⟩

/-- C4 witness: on the counterexample order, filling 3 (within the
total volume) succeeds and cancelling 7 (above the remaining volume 6)
fails. -/
theorem spot_order_volume_validation_witness :
    (c4order.create_filled_copy 1 100 (some 3) none).isOk = true ∧
    (c4order.create_cancelled_copy 1 (some 7) none).isOk = false := by
  have hf := (spot_order_volume_validation c4order 1 1 100 3 none none
    (by norm_num)).1
  have hc := (spot_order_volume_validation c4order 1 1 100 7 none none
    (by norm_num)).2
  constructor
  · exact hf.mpr ⟨rfl, by norm_num, by norm_num [c4order]⟩
  · refine Bool.eq_false_iff.mpr (fun hh => ?_)
    have := hc.mp hh
    have h6 : c4order.remaining_volume = 6 := by
      norm_num [c4order, SpotOrder.remaining_volume]
    rw [h6] at this
    exact absurd this.2.2 (by norm_num)

/-- C9 counterexample order: PENDING with a prior recorded fill fee of
5. -/
def c9order : SpotOrder :=
  { broker_id := 1
    trading_pair_code := "BTCUSD"
    agent_id := 1
    account_id := 1
    backtest_run_id := 1
    order_number := 1
    direction := OrderDirection.LONG
    status := OrderStatus.PENDING
    create_timestamp := 0
    volume := 10
    fee_fill := some 5
    id := 8
    root_id := some 8 }

/-- C9 counterexample: passing a fee of 0 to `create_filled_copy`
stores 0 in the copy, not the prior fee value 5 — the fee argument is
passed through verbatim with no falsiness defaulting. -/
theorem spot_order_fee_passthrough_counterexample :
    c9order.fee_fill = some 5 ∧
    (c9order.create_filled_copy 1 100 none (some 0)).map
        (fun x => x.fee_fill) =
      Except.ok (some 0) := by
  refine ⟨rfl, ?_⟩
  norm_num [c9order, SpotOrder.create_filled_copy, pyOrDecimal, Except.map]

/-- C9 amended: on a PENDING SpotOrder, a fill volume of 0 is treated
as unset and the copy is FILLED for the full order volume; a cancel
volume of 0 cancels the entire remaining volume provided that volume is
positive; the fee argument is stored in the copy exactly as passed. -/
theorem spot_order_zero_volume_defaults (o : SpotOrder) (ts1 ts2 : Timestamp)
    (price : Money) (fee1 fee2 : Option Money)
    (hs : o.status = OrderStatus.PENDING) (hv : 0 < o.volume) :
    o.create_filled_copy ts1 price (some 0) fee1 =
      Except.ok
        { o with
            status := OrderStatus.FILLED
            fill_timestamp := some ts1
            fill_price := some price
            fill_volume := some o.volume
            fee_fill := fee1 } ∧
    (0 < o.remaining_volume →
      o.create_cancelled_copy ts2 (some 0) fee2 =
        Except.ok
          { o with
              status := OrderStatus.CANCELLED
              cancel_timestamp := some ts2
              cancel_volume := some o.remaining_volume
              fee_cancel := fee2 }) := by
  have hpy : ∀ d : Money, pyOrDecimal (some 0) d = d := fun d => by
    simp [pyOrDecimal]
  constructor
  · simp only [SpotOrder.create_filled_copy, hpy]
    rw [if_neg (by simp [hs]), if_neg (by push_neg; exact ⟨hv, le_refl _⟩)]
  · intro hr
    simp only [SpotOrder.create_cancelled_copy, hpy]
    rw [if_neg (by simp [hs]), if_neg (by push_neg; exact ⟨hr, le_refl _⟩)]

/-- C9 witness: on a PENDING order of volume 10 with nothing yet filled
or cancelled, zero fill and cancel volumes default to the full volume
10. -/
theorem spot_order_zero_volume_defaults_witness :
    (c9order.create_filled_copy 1 100 (some 0) none).map
        (fun x => x.fill_volume) =
      Except.ok (some 10) ∧
    (c9order.create_cancelled_copy 2 (some 0) none).map
        (fun x => x.cancel_volume) =
      Except.ok (some 10) := by
  have h := spot_order_zero_volume_defaults c9order 1 2 100 none none rfl
    (by norm_num [c9order])
  have hr : (0:ℚ) < c9order.remaining_volume := by
    norm_num [c9order, SpotOrder.remaining_volume]
  constructor
  · rw [h.1]
    simp [Except.map, c9order]
  · rw [h.2 hr]
    simp [Except.map, c9order, SpotOrder.remaining_volume]

/-- C5: margin formula — for every well-formed TradingRules and
positive volume, price and contract size, `calculate_margin_required`
returns the full notional under NO_LEVERAGE, volume × leverage_value
under FLAT_MARGIN_PER_VOLUME, and notional / leverage_value under
MARGIN_MULTIPLIER. -/
theorem calculate_margin_required_formula (r : TradingRules)
    (volume price contract_size : Money) (hr : r.WellFormed)
    (hv : 0 < volume) (hp : 0 < price) (hc : 0 < contract_size) :
    (r.leverage_type = LeverageType.NO_LEVERAGE →
      r.calculate_margin_required volume price contract_size =
        volume * price * contract_size) ∧
    (r.leverage_type = LeverageType.FLAT_MARGIN_PER_VOLUME →
      r.calculate_margin_required volume price contract_size =
        volume * r.leverage_value) ∧
    (r.leverage_type = LeverageType.MARGIN_MULTIPLIER →
      r.calculate_margin_required volume price contract_size =
        volume * price * contract_size / r.leverage_value) := by
  refine ⟨fun h => ?_, fun h => ?_, fun h => ?_⟩ <;>
    simp [TradingRules.calculate_margin_required, h]

/-- C5 witness rules: MARGIN_MULTIPLIER with leverage value 10. -/
def c5rules : TradingRules :=
  { broker_id := 1
    pair_code := "BTCUSD"
    leverage_type := LeverageType.MARGIN_MULTIPLIER
    leverage_value := 10 }

/-- C5 witness: the spec's concrete scenario — volume 0.1 at price
50000 with multiplier 10 requires margin 500. -/
theorem calculate_margin_required_formula_witness :
    c5rules.calculate_margin_required (1/10) 50000 1 = 500 := by
  have hwf : c5rules.WellFormed := by
    refine ⟨by decide, ?_, ?_, ?_, ?_, ?_, ?_, ?_, ?_⟩ <;>
      simp [c5rules] <;> norm_num
  have h := (calculate_margin_required_formula c5rules (1/10) 50000 1 hwf
    (by norm_num) (by norm_num) (by norm_num)).2.2 rfl
  rw [h]
  norm_num [c5rules]

/-- C6: `validate_order` evaluates the checks in the fixed order
direction permission, volume ≥ min_volume, notional ≥ min_notional,
required margin ≥ min_margin, available margin ≥ required margin,
returning `(false, reason)` at the first failing check and
`(true, none)` when all pass — it coincides with the first-failure
evaluation written from the spec, and its boolean is true exactly when
all five checks hold.  Both sides are total pure functions: a
business-rule violation is reported in the returned pair, never by an
exception, and nothing is mutated. -/
theorem validate_order_check_order (r : TradingRules)
    (volume price margin : Money) (is_long : Bool) (contract_size : Money) :
    r.validate_order volume price margin is_long contract_size =
      validate_order_spec r volume price margin is_long contract_size ∧
    ((r.validate_order volume price margin is_long contract_size).1 = true ↔
      ((if is_long then r.allows_long else r.allows_short) = true ∧
        r.min_volume ≤ volume ∧
        r.min_notional_amount ≤ volume * price * contract_size ∧
        r.min_margin_amount ≤
          r.calculate_margin_required volume price contract_size ∧
        r.calculate_margin_required volume price contract_size ≤ margin)) := by
  refine ⟨?_, ?_⟩ <;>
    cases is_long <;>
      by_cases hA : r.allows_long = true <;>
      by_cases hB : r.allows_short = true <;>
      by_cases h2 : volume < r.min_volume <;>
      by_cases h3 : volume * price * contract_size < r.min_notional_amount <;>
      by_cases h4 : r.calculate_margin_required volume price contract_size <
        r.min_margin_amount <;>
      by_cases h5 : margin <
        r.calculate_margin_required volume price contract_size <;>
      simp [TradingRules.validate_order, validate_order_spec, List.find?,
        hA, hB, h2, h3, h4, h5, ← not_lt]

/-- Helper: mapped bar events contain no `on_start` occurrences. -/
theorem count_on_start_map_on_bar (bars : List BarData) :
    (bars.map EngineEvent.on_bar).count EngineEvent.on_start = 0 := by
  induction bars with
  | nil => rfl
  | cons b bs ih => simp [List.count_cons, ih]

/-- Helper: mapped bar events contain no `on_end` occurrences. -/
theorem count_on_end_map_on_bar (bars : List BarData) :
    (bars.map EngineEvent.on_bar).count EngineEvent.on_end = 0 := by
  induction bars with
  | nil => rfl
  | cons b bs ih => simp [List.count_cons, ih]

/-- Helper: projecting the bars back out of mapped bar events is the
identity. -/
theorem filterMap_bar_map_on_bar (bars : List BarData) :
    List.filterMap (EngineEvent.bar? ∘ EngineEvent.on_bar) bars = bars := by
  induction bars with
  | nil => rfl
  | cons b bs ih =>
      simp [List.filterMap_cons, Function.comp, EngineEvent.bar?, ih]

/-- Helper: `run_events` as a cons-normalised list. -/
theorem run_events_eq (bars : List BarData) :
    run_events bars =
      EngineEvent.on_start ::
        (bars.map EngineEvent.on_bar ++
          [EngineEvent.on_end, EngineEvent.close_all_positions]) := by
  simp [run_events]

/-- C7: strategy callback sequencing — over a prepared dataset of
n bars, `BacktestEngine.run` emits `on_start` exactly once and first,
`on_bar` exactly once per bar in dataset order (n calls, all strictly
between `on_start` and `on_end`), and `on_end` exactly once after the
last bar and immediately before the forced closure of remaining open
positions. -/
theorem engine_callback_sequencing (bars : List BarData) :
    (run_events bars).count EngineEvent.on_start = 1 ∧
    (run_events bars)[0]? = some EngineEvent.on_start ∧
    (run_events bars).filterMap EngineEvent.bar? = bars ∧
    (run_events bars).count EngineEvent.on_end = 1 ∧
    (run_events bars)[bars.length + 1]? = some EngineEvent.on_end ∧
    (run_events bars)[bars.length + 2]? = some EngineEvent.close_all_positions ∧
    (∀ i b, (run_events bars)[i]? = some (EngineEvent.on_bar b) →
      1 ≤ i ∧ i ≤ bars.length) := by
  refine ⟨?_, ?_, ?_, ?_, ?_, ?_, ?_⟩
  · simp [run_events, List.count_cons, List.count_append,
      count_on_start_map_on_bar]
  · simp [run_events]
  · simp [run_events, List.filterMap_append, filterMap_bar_map_on_bar,
      EngineEvent.bar?]
  · simp [run_events, List.count_cons, List.count_append,
      count_on_end_map_on_bar]
  · simp only [run_events, List.singleton_append, List.getElem?_cons_succ]
    rw [List.getElem?_append_right (by simp)]
    simp
  · simp only [run_events, List.singleton_append, List.getElem?_cons_succ]
    rw [List.getElem?_append_right (by simp)]
    simp
  · intro i b h
    rw [run_events_eq] at h
    match i with
    | 0 => simp at h
    | i + 1 =>
        rw [List.getElem?_cons_succ] at h
        rcases Nat.lt_or_ge i bars.length with hi | hi
        · omega
        · rw [List.getElem?_append_right
            (by simpa [List.length_map] using hi)] at h
          simp only [List.length_map] at h
          rcases hk : i - bars.length with _ | _ | k <;> rw [hk] at h <;>
            simp at h

/-- C8: Balance non-negativity at construction — constructing a
Balance with a negative available or unavailable component always
fails with a validation error, and every successfully constructed
Balance has both components non-negative, so no Balance value with a
negative component can exist. -/
theorem balance_nonnegativity (account_id backtest_run_id : Ident)
    (ts : Timestamp) (a u : Money) :
    ((a < 0 ∨ u < 0) →
      ∃ e, Balance.make account_id backtest_run_id ts a u = Except.error e) ∧
    (∀ b, Balance.make account_id backtest_run_id ts a u = Except.ok b →
      0 ≤ b.available_balance ∧ 0 ≤ b.unavailable_balance) := by
  unfold Balance.make
  split_ifs with h1 h2
  · exact ⟨fun _ => ⟨_, rfl⟩, fun b hb => by cases hb⟩
  · exact ⟨fun _ => ⟨_, rfl⟩, fun b hb => by cases hb⟩
  · constructor
    · rintro (h | h)
      · exact absurd h h1
      · exact absurd h h2
    · intro b hb
      cases hb
      exact ⟨not_lt.mp h1, not_lt.mp h2⟩

/-- C8 witness: constructing a Balance with available −1 fails. -/
theorem balance_nonnegativity_witness :
    (Balance.make 1 1 0 (-1) 0).isOk = false := by
  obtain ⟨e, he⟩ := (balance_nonnegativity 1 1 0 (-1) 0).1 (Or.inl (by norm_num))
  rw [he]
  rfl

/-- C7 witness bar 1. -/
def c7bar1 : BarData :=
  { symbol := "BTCUSD", timestamp := 1, openPrice := 1, high := 2, low := 1,
    close := 2, volume := 3 }

/-- C7 witness bar 2. -/
def c7bar2 : BarData :=
  { symbol := "BTCUSD", timestamp := 2, openPrice := 2, high := 3, low := 2,
    close := 3, volume := 4 }

/-- C7 witness: on a two-bar dataset the engine emits `on_start` once,
replays both bars in order, and the first bar sits strictly between
`on_start` and `on_end`. -/
theorem engine_callback_sequencing_witness :
    (run_events [c7bar1, c7bar2]).count EngineEvent.on_start = 1 ∧
    (run_events [c7bar1, c7bar2]).filterMap EngineEvent.bar? =
      [c7bar1, c7bar2] ∧
    (1 ≤ 1 ∧ 1 ≤ 2) := by
  have h := engine_callback_sequencing [c7bar1, c7bar2]
  exact ⟨h.1, h.2.2.1, h.2.2.2.2.2.2 1 c7bar1 rfl⟩

end Backtest
